import Mathlib

/-!
Shallow embedding of the `ort` FFI bridge sources under verification:
`src/execution_providers/cuda.rs` and `src/operator/kernel.rs`.

The native ONNX Runtime side of each FFI call is modelled as an explicit
oracle value (the status, reported sizes, and buffer contents the native
call produces); the Rust functions are translated into Lean functions over
those oracles.  Machine integers are carried as `Nat`/`Int`; `f32` payloads
are never interpreted arithmetically by the bridge, so they are carried as
opaque `Nat` bit patterns.  Byte buffers are `List Nat` (one entry per
byte).  Fallible Rust code returns `Except`; a failed `assert_eq!` is the
distinguished outcome `RustOutcome.panicked`.
-/

/-- Bitset of CUDA attention backend capability flags
(`CUDAAttentionBackend` in cuda.rs, a `#[repr(transparent)]` wrapper over a
`u32`).  Every declared flag is a single bit below `2 ^ 32` and bitwise or
cannot overflow, so the value is carried as a plain natural number. -/
structure CUDAAttentionBackend where
  bits : Nat
deriving DecidableEq

/-- Flag constant `FLASH_ATTENTION = 1 << 0` (cuda.rs line 13). -/
def CUDAAttentionBackend.FLASH_ATTENTION : CUDAAttentionBackend := ⟨2 ^ 0⟩

/-- Flag constant `EFFICIENT_ATTENTION = 1 << 1` (cuda.rs line 14). -/
def CUDAAttentionBackend.EFFICIENT_ATTENTION : CUDAAttentionBackend := ⟨2 ^ 1⟩

/-- Flag constant `TRT_FUSED_ATTENTION = 1 << 2` (cuda.rs line 15). -/
def CUDAAttentionBackend.TRT_FUSED_ATTENTION : CUDAAttentionBackend := ⟨2 ^ 2⟩

/-- Flag constant `CUDNN_FLASH_ATTENTION = 1 << 3` (cuda.rs line 16). -/
def CUDAAttentionBackend.CUDNN_FLASH_ATTENTION : CUDAAttentionBackend := ⟨2 ^ 3⟩

/-- Flag constant `MATH = 1 << 4` (cuda.rs line 17). -/
def CUDAAttentionBackend.MATH : CUDAAttentionBackend := ⟨2 ^ 4⟩

/-- Flag constant `TRT_FLASH_ATTENTION = 1 << 5` (cuda.rs line 19). -/
def CUDAAttentionBackend.TRT_FLASH_ATTENTION : CUDAAttentionBackend := ⟨2 ^ 5⟩

/-- Flag constant `TRT_CROSS_ATTENTION = 1 << 6` (cuda.rs line 20). -/
def CUDAAttentionBackend.TRT_CROSS_ATTENTION : CUDAAttentionBackend := ⟨2 ^ 6⟩

/-- Flag constant `TRT_CAUSAL_ATTENTION = 1 << 7` (cuda.rs line 21). -/
def CUDAAttentionBackend.TRT_CAUSAL_ATTENTION : CUDAAttentionBackend := ⟨2 ^ 7⟩

/-- Flag constant `LEAN_ATTENTION = 1 << 8` (cuda.rs line 23). -/
def CUDAAttentionBackend.LEAN_ATTENTION : CUDAAttentionBackend := ⟨2 ^ 8⟩

/-- Constructor `CUDAAttentionBackend::none()` (cuda.rs lines 25-27). -/
def CUDAAttentionBackend.noneFlags : CUDAAttentionBackend := ⟨0⟩

/-- Operator `BitOr for CUDAAttentionBackend` (cuda.rs lines 41-46): the
source computes `Self(rhs.0 | self.0)`, right operand first. -/
def CUDAAttentionBackend.bitor (self rhs : CUDAAttentionBackend) : CUDAAttentionBackend :=
  ⟨Nat.lor rhs.bits self.bits⟩

/-- Constructor `CUDAAttentionBackend::all()` (cuda.rs lines 29-38): the
left-associated bitwise or of the eight constants `FLASH_ATTENTION` through
`TRT_CAUSAL_ATTENTION`; `LEAN_ATTENTION` does not appear in the source. -/
def CUDAAttentionBackend.all : CUDAAttentionBackend :=
  ((((((CUDAAttentionBackend.FLASH_ATTENTION.bitor
    CUDAAttentionBackend.EFFICIENT_ATTENTION).bitor
    CUDAAttentionBackend.TRT_FUSED_ATTENTION).bitor
    CUDAAttentionBackend.CUDNN_FLASH_ATTENTION).bitor
    CUDAAttentionBackend.MATH).bitor
    CUDAAttentionBackend.TRT_FLASH_ATTENTION).bitor
    CUDAAttentionBackend.TRT_CROSS_ATTENTION).bitor
    CUDAAttentionBackend.TRT_CAUSAL_ATTENTION

/-- Modelled from the spec: `ExecutionProviderOptions` (the Option
Registry) is defined outside the two source files under `src/`; cuda.rs
only consumes it.  Spec section 3 describes it as "an ordered mapping from
option-name strings to option-value strings (insertion order preserved)"
with unique keys, and section 4.1 gives `set(key, value)`: "inserts or
overwrites a string value for `key`; last write wins". -/
structure ExecutionProviderOptions where
  entries : List (String × String)
deriving DecidableEq

/-- Modelled from the spec: `set` overwrites the value in place when the
key is already present (preserving its original insertion position) and
appends a fresh entry otherwise, so keys stay unique and insertion order is
preserved. -/
def ExecutionProviderOptions.set (o : ExecutionProviderOptions) (key value : String) : ExecutionProviderOptions :=
  if o.entries.any (fun e => e.1 = key) then
    ⟨o.entries.map (fun e => if e.1 = key then (key, value) else e)⟩
  else
    ⟨o.entries ++ [(key, value)]⟩

/-- Struct `CUDAExecutionProvider` (cuda.rs lines 84-87): wraps an
`ExecutionProviderOptions` value. -/
structure CUDAExecutionProvider where
  options : ExecutionProviderOptions
deriving DecidableEq

/-- Derived `Default for CUDAExecutionProvider`: empty option set. -/
def CUDAExecutionProvider.default : CUDAExecutionProvider := ⟨⟨[]⟩⟩

/-- Builder method `with_device_id` (cuda.rs lines 92-96): sets key
`device_id` to the decimal rendering of the `i32` argument. -/
def CUDAExecutionProvider.with_device_id (p : CUDAExecutionProvider) (device_id : Int) : CUDAExecutionProvider :=
  ⟨p.options.set "device_id" (toString device_id)⟩

/-- Builder method `with_memory_limit` (cuda.rs lines 100-104): sets key
`gpu_mem_limit` to the decimal rendering of the `usize` argument. -/
def CUDAExecutionProvider.with_memory_limit (p : CUDAExecutionProvider) (limit : Nat) : CUDAExecutionProvider :=
  ⟨p.options.set "gpu_mem_limit" (toString limit)⟩

/-- Builder method `with_tf32` (cuda.rs lines 210-214): sets key `use_tf32`
to the literal string "1" or "0". -/
def CUDAExecutionProvider.with_tf32 (p : CUDAExecutionProvider) (enable : Bool) : CUDAExecutionProvider :=
  ⟨p.options.set "use_tf32" (if enable then "1" else "0")⟩

/-- Builder method `with_attention_backend` (cuda.rs lines 230-234): sets
key `sdpa_kernel` to the decimal rendering of the bitset integer. -/
def CUDAExecutionProvider.with_attention_backend (p : CUDAExecutionProvider) (flags : CUDAAttentionBackend) : CUDAExecutionProvider :=
  ⟨p.options.set "sdpa_kernel" (toString flags.bits)⟩

/-- Opaque native status produced by a failing ONNX Runtime call. -/
inductive NativeErr where
  | status (msg : String)
deriving DecidableEq

/-- Error value of the crate `Error` type as produced along the attribute
decoding paths of kernel.rs: either a wrapped native status (the `?` on an
`ortsys!` call), a `CString::from_vec_with_nul` failure, a UTF-8 validation
failure from `CString::into_string`, or the explicit
`Error::new("invalid string")` of the positional `String` decoder. -/
inductive DecodeErr where
  | native (e : NativeErr)
  | fromVecWithNul
  | invalidUtf8
  | invalidString
deriving DecidableEq

/-- Outcome of a Rust function that may return a value, return an error, or
abort on a failed `assert_eq!`. -/
inductive RustOutcome (α : Type) where
  | ok (value : α)
  | error (e : DecodeErr)
  | panicked
deriving DecidableEq

/-- Semantics of `CString::from_vec_with_nul`: scans the byte buffer for
the first nul byte; a nul exactly at the end yields the content before it,
an interior nul or a missing nul is a failure (`Option.none`). -/
def cstringFromVecWithNul : List Nat → Option (List Nat)
  | [] => Option.none
  | [b] => if b = 0 then Option.some [] else Option.none
  | b :: c :: rest =>
    if b = 0 then Option.none
    else (cstringFromVecWithNul (c :: rest)).map (fun s => b :: s)

/-- Continuation byte check for UTF-8 validation: `0x80 ≤ b ≤ 0xBF`. -/
def utf8ContByte (b : Nat) : Bool :=
  decide (0x80 ≤ b) && decide (b ≤ 0xBF)

/-- Allowed range of the second byte of a three-byte UTF-8 sequence led by
`b` (RFC 3629 table, as enforced by the Rust standard library). -/
def utf8Second3 (b c : Nat) : Bool :=
  if b = 0xE0 then decide (0xA0 ≤ c) && decide (c ≤ 0xBF)
  else if b = 0xED then decide (0x80 ≤ c) && decide (c ≤ 0x9F)
  else utf8ContByte c

/-- Allowed range of the second byte of a four-byte UTF-8 sequence led by
`b` (RFC 3629 table, as enforced by the Rust standard library). -/
def utf8Second4 (b c : Nat) : Bool :=
  if b = 0xF0 then decide (0x90 ≤ c) && decide (c ≤ 0xBF)
  else if b = 0xF4 then decide (0x80 ≤ c) && decide (c ≤ 0x8F)
  else utf8ContByte c

/-- Semantics of the UTF-8 validity check performed by
`CString::into_string` (RFC 3629: no surrogates, no overlong forms, max
`U+10FFFF`). -/
def utf8Valid : List Nat → Bool
  | [] => true
  | b :: rest =>
    if b ≤ 0x7F then utf8Valid rest
    else if 0xC2 ≤ b ∧ b ≤ 0xDF then
      match rest with
      | c1 :: rest1 => utf8ContByte c1 && utf8Valid rest1
      | [] => false
    else if 0xE0 ≤ b ∧ b ≤ 0xEF then
      match rest with
      | c1 :: c2 :: rest2 => utf8Second3 b c1 && utf8ContByte c2 && utf8Valid rest2
      | _ => false
    else if 0xF0 ≤ b ∧ b ≤ 0xF4 then
      match rest with
      | c1 :: c2 :: c3 :: rest3 =>
        utf8Second4 b c1 && utf8ContByte c2 && utf8ContByte c3 && utf8Valid rest3
      | _ => false
    else false

/-- Native behaviour of a two-call named-attribute query
(`KernelInfoGetAttribute_string` / `KernelInfoGetAttributeArray_float` /
`KernelInfoGetAttributeArray_int64`): `sizeQuery` is the outcome of the
first call with a null buffer (on success, the size it stores), and
`fill n` is the outcome of the second call on a freshly allocated buffer of
length `n` (on success, the buffer contents after the call; the buffer
length itself cannot change, so a well-formed native layer satisfies
`fill n = Except.ok l → l.length = n`). -/
structure NamedAttrOracle (α : Type) where
  sizeQuery : Except NativeErr Nat
  fill : Nat → Except NativeErr (List α)

/-- Embedding of `FromKernelAttributes for String::from_info` (kernel.rs
lines 230-244): query the size with a null buffer, allocate `vec![0u8;
size]`, fill it, then run `CString::from_vec_with_nul` followed by
`into_string` (UTF-8 validation).  The decoded string is carried as its
byte list. -/
def string_from_info (o : NamedAttrOracle Nat) : Except DecodeErr (List Nat) :=
  match o.sizeQuery with
  | .error e => .error (.native e)
  | .ok size =>
    match o.fill size with
    | .error e => .error (.native e)
    | .ok out =>
      match cstringFromVecWithNul out with
      | Option.some s => if utf8Valid s then .ok s else .error .invalidUtf8
      | Option.none => .error .fromVecWithNul

/-- Embedding of `FromKernelAttributes for Vec<f32>::from_info` (kernel.rs
lines 266-279) and `Vec<i64>::from_info` (lines 299-312), which are
textually identical up to element type: query the element count with a null
buffer, allocate `vec![0; size]`, fill it, return the buffer.  Element
payloads are opaque, hence the type parameter. -/
def arrayFromInfo {α : Type} (o : NamedAttrOracle α) : Except DecodeErr (List α) :=
  match o.sizeQuery with
  | .error e => .error (.native e)
  | .ok size =>
    match o.fill size with
    | .error e => .error (.native e)
    | .ok out => .ok out

/-- List of native kernel-info calls a `KernelAttributes` operation makes:
`CopyKernelInfo` (deep copy, source and destination pointers) and
`ReleaseKernelInfo`. -/
inductive KernelInfoCall where
  | copyKernelInfo (src dst : Nat)
  | releaseKernelInfo (ptr : Nat)
deriving DecidableEq

/-- Struct `KernelAttributes` (kernel.rs lines 34-37): a native
`OrtKernelInfo` pointer (carried as an id) plus the ownership flag
`should_release`. -/
structure KernelAttributes where
  ptr : Nat
  should_release : Bool
deriving DecidableEq

/-- Constructor `KernelAttributes::from_ptr` (kernel.rs lines 40-42). -/
def KernelAttributes.from_ptr (ptr : Nat) (should_release : Bool) : KernelAttributes :=
  ⟨ptr, should_release⟩

/-- Embedding of `Drop for KernelAttributes` (kernel.rs lines 137-143): the
native calls the destructor makes — `ReleaseKernelInfo` on the held pointer
when `should_release` is set, nothing otherwise.  Rust runs the destructor
exactly once per handle. -/
def KernelAttributes.dropCalls (ka : KernelAttributes) : List KernelInfoCall :=
  if ka.should_release then [KernelInfoCall.releaseKernelInfo ka.ptr] else []

/-- Embedding of `Clone for KernelAttributes` (kernel.rs lines 118-127):
`CopyKernelInfo` performs a native deep copy into a fresh pointer `out`
and the clone is constructed with `should_release: true`.  Returns the
clone together with the native calls made by `clone` itself. -/
def KernelAttributes.clone (ka : KernelAttributes) (out : Nat) : KernelAttributes × List KernelInfoCall :=
  (⟨out, true⟩, [KernelInfoCall.copyKernelInfo ka.ptr out])

/-- Embedding of `KernelAttributes::get` (kernel.rs lines 44-46): runs the
typed decode `T::from_info` and converts the `Result` to an `Option` with
`.ok()`, discarding any error value.  The argument is the decode outcome
(the `with_cstr` name conversion, which can itself fail and is likewise
mapped to `Option.none`, happens outside `src/`). -/
def KernelAttributes.get {α : Type} (decoded : Except DecodeErr α) : Option α :=
  decoded.toOption

/-- Method `get::<String>` as the composition of `KernelAttributes.get`
with the `String` decoder. -/
def KernelAttributes.get_string (o : NamedAttrOracle Nat) : Option (List Nat) :=
  KernelAttributes.get (string_from_info o)

/-- Native behaviour of one `ReadOpAttr` call: its status, the length it
stores through the `&mut len` out-parameter, and the buffer contents it
writes (for a scalar decoder, the scalar; for an array decoder, the final
buffer, whose length equals the allocated element count). -/
structure ReadOpAttrOracle (α : Type) where
  result : Except NativeErr Unit
  reportedLen : Nat
  written : α

/-- Embedding of `FromOpAttr for f32::from_op_attr` (kernel.rs lines
186-194): calls `ReadOpAttr` with buffer size `size_of::<f32>() = 4` (the
incoming `len` argument is overwritten), then `assert_eq!(len, 4)` on the
reported length. -/
def f32_from_op_attr (o : ReadOpAttrOracle Nat) (_len : Nat) : RustOutcome Nat :=
  match o.result with
  | .error e => .error (.native e)
  | .ok _ => if o.reportedLen = 4 then .ok o.written else .panicked

/-- Embedding of `FromOpAttr for i64::from_op_attr` (kernel.rs lines
217-225): calls `ReadOpAttr` with buffer size `size_of::<i64>() = 8`, then
`assert_eq!(len, 8)` on the reported length. -/
def i64_from_op_attr (o : ReadOpAttrOracle Int) (_len : Nat) : RustOutcome Int :=
  match o.result with
  | .error e => .error (.native e)
  | .ok _ => if o.reportedLen = 8 then .ok o.written else .panicked

/-- Embedding of `FromOpAttr for String::from_op_attr` (kernel.rs lines
251-261): allocates `vec![0u8; len]`, calls `ReadOpAttr`, then
`assert_eq!(out.len(), len)` — the vector length is the requested `len`
and the right-hand side is the reported length, so the assertion is exact
equality of requested and reported byte counts.  On success the buffer goes
through `CString::from_vec_with_nul` and `into_string`, both failures
mapped to `Error::new("invalid string")`. -/
def string_from_op_attr (o : ReadOpAttrOracle (List Nat)) (len : Nat) : RustOutcome (List Nat) :=
  match o.result with
  | .error e => .error (.native e)
  | .ok _ =>
    if len = o.reportedLen then
      match cstringFromVecWithNul o.written with
      | Option.some s => if utf8Valid s then .ok s else .error .invalidString
      | Option.none => .error .invalidString
    else .panicked

/-- Embedding of `FromOpAttr for Vec<f32>::from_op_attr` (kernel.rs lines
286-294): allocates `vec![0f32; len / 4]`, calls `ReadOpAttr`, then
`assert_eq!(out.len(), len / 4)` — the vector length is the requested
`len / 4` computed at allocation and the right-hand side uses the reported
length, so the assertion compares `requested / 4` with `reported / 4`, not
the raw byte counts. -/
def vec_f32_from_op_attr (o : ReadOpAttrOracle (List Nat)) (len : Nat) : RustOutcome (List Nat) :=
  match o.result with
  | .error e => .error (.native e)
  | .ok _ => if len / 4 = o.reportedLen / 4 then .ok o.written else .panicked

/-- Embedding of `FromOpAttr for Vec<i64>::from_op_attr` (kernel.rs lines
319-327): allocates `vec![0i64; len / 8]`, calls `ReadOpAttr`, then
`assert_eq!(out.len(), len / 8)`, comparing `requested / 8` with
`reported / 8`. -/
def vec_i64_from_op_attr (o : ReadOpAttrOracle (List Int)) (len : Nat) : RustOutcome (List Int) :=
  match o.result with
  | .error e => .error (.native e)
  | .ok _ => if len / 8 = o.reportedLen / 8 then .ok o.written else .panicked

/-- Error type `RegisterError` as used by `CUDAExecutionProvider::register`
(cuda.rs lines 256-282): a missing compile-time feature, or a wrapped
native status. -/
inductive RegisterError where
  | missingFeature
  | native (e : NativeErr)
deriving DecidableEq

/-- Native calls `register` can make, in the order the source issues
them. -/
inductive CudaNativeCall where
  | createOptions
  | updateOptions
  | appendProvider
  | releaseOptions
deriving DecidableEq

/-- Native behaviour of the three fallible calls inside `register`:
`CreateCUDAProviderOptions`, `UpdateCUDAProviderOptions`, and
`SessionOptionsAppendExecutionProvider_CUDA_V2`. -/
structure CudaRegisterOracle where
  createResult : Except NativeErr Unit
  updateResult : Except NativeErr Unit
  appendResult : Except NativeErr Unit

/-- Embedding of `CUDAExecutionProvider::register` (cuda.rs lines 256-282)
returning the result together with the trace of native calls.  When the
`cuda`/`load-dynamic` feature is compiled out the body is the single
statement `Err(RegisterError::MissingFeature)`.  Otherwise the source
creates the provider-options object (a `?` failure here returns before the
release guard is installed), installs `util::run_on_drop` which issues
`ReleaseCUDAProviderOptions` when the scope exits, then performs the update
and append calls, each early-returning through `?` on failure; the guard
fires on every one of those exits and on the `return Ok(())`. -/
def cudaRegister (featureEnabled : Bool) (o : CudaRegisterOracle) : Except RegisterError Unit × List CudaNativeCall :=
  match featureEnabled with
  | false => (.error .missingFeature, [])
  | true =>
    match o.createResult with
    | .error e => (.error (.native e), [.createOptions])
    | .ok _ =>
      match o.updateResult with
      | .error e => (.error (.native e), [.createOptions, .updateOptions, .releaseOptions])
      | .ok _ =>
        match o.appendResult with
        | .error e =>
          (.error (.native e), [.createOptions, .updateOptions, .appendProvider, .releaseOptions])
        | .ok _ => (.ok (), [.createOptions, .updateOptions, .appendProvider, .releaseOptions])

/-- Predicate picking out the release call in a `register` trace. -/
def isReleaseOptions : CudaNativeCall → Bool
  | CudaNativeCall.releaseOptions => true
  | _ => false

/-- Number of `ReleaseCUDAProviderOptions` calls in a `register` trace. -/
def countReleases (calls : List CudaNativeCall) : Nat :=
  (calls.filter isReleaseOptions).length

/-- Modelled from the spec: the native `KernelContext_ParallelFor` of the
runtime is outside the two source files; spec section 4.4 specifies that it
"partitions the index range `[0, total)` into at most `max_num_batches`
contiguous batches and invokes `work` once per element index".  The batch
boundaries are modelled as the even split `lo i = i * total / nb` over
`nb = min (max max_num_batches 1) total` batches (at least one batch is
needed to cover a nonempty range).  The value is the sequence of indices at
which the native pool invokes the registered callback. -/
def parallelForIndices (total max_num_batches : Nat) : List Nat :=
  if total = 0 then []
  else
    let nb := min (max max_num_batches 1) total
    (List.range nb).flatMap
      (fun i => List.range' (i * total / nb) ((i + 1) * total / nb - i * total / nb))

/-- Embedding of the trampoline `parallel_for_cb` (kernel.rs lines
484-487): reconstruct the boxed closure from the opaque user-data pointer
and invoke it at the supplied index. -/
def parallel_for_cb {α : Type} (executor : Nat → α) (iterator : Nat) : α :=
  executor iterator

/-- Embedding of `KernelContext::par_for` (kernel.rs lines 429-436): box
the work closure, register `parallel_for_cb` with the native
`KernelContext_ParallelFor`, and block until done.  The observable value is
the list of work-invocation results, one per callback invocation the native
side performs. -/
def KernelContext.par_for {α : Type} (total max_num_batches : Nat) (f : Nat → α) : List α :=
  (parallelForIndices total max_num_batches).map (parallel_for_cb f)

/-- Helper: flat-mapping consecutive `range'` blocks with boundaries given
by a step-monotone function `lo` covers exactly `[lo 0, lo k)`. -/
theorem flatMapRangeChain (lo : Nat → Nat) (mono : ∀ i, lo i ≤ lo (i + 1)) (k : Nat) :
    (List.range k).flatMap (fun i => List.range' (lo i) (lo (i + 1) - lo i))
      = List.range' (lo 0) (lo k - lo 0) := by
  induction k with
  | zero => simp
  | succ k ih =>
    have h0k : lo 0 ≤ lo k := monotone_nat_of_le_succ mono (Nat.zero_le k)
    have hk : lo k ≤ lo (k + 1) := mono k
    have happ := List.range'_append (lo 0) (lo k - lo 0) (lo (k + 1) - lo k) 1
    have e1 : lo 0 + 1 * (lo k - lo 0) = lo k := by omega
    have e2 : lo (k + 1) - lo k + (lo k - lo 0) = lo (k + 1) - lo 0 := by omega
    rw [e1, e2] at happ
    rw [List.range_succ, List.flatMap_append, ih]
    simpa using happ

/-- Helper: the modelled native partition enumerates `[0, total)` exactly,
in order, for every batch bound. -/
theorem parallelForIndices_eq_range (total m : Nat) :
    parallelForIndices total m = List.range total := by
  unfold parallelForIndices
  by_cases h : total = 0
  · simp [h]
  · simp only [h, if_false]
    set nb := min (max m 1) total with hnb
    have hnbpos : 0 < nb := by
      have h1 : 1 ≤ max m 1 := le_max_right m 1
      have h2 : 1 ≤ total := Nat.one_le_iff_ne_zero.mpr h
      exact Nat.le_min.mpr ⟨h1, h2⟩
    have mono : ∀ i, i * total / nb ≤ (i + 1) * total / nb := by
      intro i
      have : i * total ≤ (i + 1) * total := by
        have : i ≤ i + 1 := Nat.le_succ i
        exact Nat.mul_le_mul_right total this
      exact Nat.div_le_div_right this
    have hchain := flatMapRangeChain (fun i => i * total / nb) mono nb
    simp only at hchain
    rw [hchain]
    have hlo0 : 0 * total / nb = 0 := by simp
    have hlonb : nb * total / nb = total := Nat.mul_div_cancel_left total hnbpos
    rw [hlo0, hlonb, Nat.sub_zero, ← List.range_eq_range']

/-- C6: `KernelContext::par_for(total, max_num_batches, work)` invokes the
work function exactly once for every index in `[0, total)` — the invocation
results are exactly `work` mapped over `[0, total)`, so no index is skipped
or repeated, for every batch bound `m`; in particular `total = 0` yields no
invocation at all (`List.range 0 = []`). -/
theorem par_for_invokes_each_index_once {α : Type} (total m : Nat) (f : Nat → α) :
    KernelContext.par_for total m f = (List.range total).map f := by
  unfold KernelContext.par_for parallel_for_cb
  rw [parallelForIndices_eq_range]

/-- C9: the `BitOr` combinator of `CUDAAttentionBackend` is commutative and
idempotent: `A | B = B | A` and `(A | B) | B = A | B` for all flag
values. -/
theorem attention_bitor_comm_idem (a b : CUDAAttentionBackend) :
    a.bitor b = b.bitor a ∧ (a.bitor b).bitor b = a.bitor b := by
  unfold CUDAAttentionBackend.bitor
  constructor
  · simp only [CUDAAttentionBackend.mk.injEq]
    show b.bits ||| a.bits = a.bits ||| b.bits
    exact Nat.lor_comm _ _
  · simp only [CUDAAttentionBackend.mk.injEq]
    show b.bits ||| (b.bits ||| a.bits) = b.bits ||| a.bits
    rw [← Nat.lor_assoc, Nat.or_self]

/-- C10: `CUDAAttentionBackend::all()` is not the join of all declared flag
constants: it equals the bitwise or of the eight constants
`FLASH_ATTENTION` through `TRT_CAUSAL_ATTENTION`, and it excludes
`LEAN_ATTENTION`, so `all() | LEAN_ATTENTION ≠ all()`. -/
theorem attention_all_excludes_lean_attention :
    CUDAAttentionBackend.all.bitor CUDAAttentionBackend.LEAN_ATTENTION ≠ CUDAAttentionBackend.all
      ∧ CUDAAttentionBackend.all
        = ((((((CUDAAttentionBackend.FLASH_ATTENTION.bitor
            CUDAAttentionBackend.EFFICIENT_ATTENTION).bitor
            CUDAAttentionBackend.TRT_FUSED_ATTENTION).bitor
            CUDAAttentionBackend.CUDNN_FLASH_ATTENTION).bitor
            CUDAAttentionBackend.MATH).bitor
            CUDAAttentionBackend.TRT_FLASH_ATTENTION).bitor
            CUDAAttentionBackend.TRT_CROSS_ATTENTION).bitor
            CUDAAttentionBackend.TRT_CAUSAL_ATTENTION := by
  constructor
  · decide
  · rfl

/-- C7: setting `device_id = 1`, `gpu_mem_limit = 1048576`, and
`use_tf32 = true` on the CUDA provider builder serializes to exactly three
key/value pairs, in insertion order, with the boolean rendered as the
literal string "1". -/
theorem cuda_builder_three_options_scenario :
    ((((CUDAExecutionProvider.default.with_device_id 1).with_memory_limit 1048576).with_tf32
        true).options).entries
      = [("device_id", "1"), ("gpu_mem_limit", "1048576"), ("use_tf32", "1")] := by
  decide

/-- C3: a `KernelAttributes` handle constructed borrowed
(`should_release = false`) performs no release on drop; a handle obtained
by `clone` (a native deep copy) performs exactly one release — of its own
fresh pointer — when dropped; and `clone` itself performs only the copy
call, never a release. -/
theorem kernel_attributes_release_discipline (p out : Nat) (b : Bool) :
    (KernelAttributes.from_ptr p false).dropCalls = []
      ∧ ((KernelAttributes.from_ptr p b).clone out).1.dropCalls
        = [KernelInfoCall.releaseKernelInfo out]
      ∧ ((KernelAttributes.from_ptr p b).clone out).2
        = [KernelInfoCall.copyKernelInfo p out] := by
  refine ⟨rfl, rfl, rfl⟩

/-- C4: in `CUDAExecutionProvider::register` with the backend feature
compiled in, the native provider-options object is released exactly once on
every exit path on which it was created — success, update failure, and
append failure — and never released when creation itself failed. -/
theorem cuda_register_releases_options_on_every_path (o : CudaRegisterOracle) :
    countReleases (cudaRegister true o).2
      = (match o.createResult with | .ok _ => 1 | .error _ => 0) := by
  rcases o with ⟨cr, ur, ar⟩
  rcases cr with e | u
  · rfl
  · rcases ur with e | u
    · rfl
    · rcases ar with e | u <;> rfl

/-- C8: when the CUDA backend feature is not compiled in, `register` fails
deterministically with `RegisterError::MissingFeature` and performs no
native call, whatever the native layer would have answered. -/
theorem cuda_register_missing_feature (o : CudaRegisterOracle) :
    cudaRegister false o = (Except.error RegisterError.missingFeature, []) := by
  rfl

/-- C1 counterexample: for the `String` decoder, a size query reporting 0
followed by a successful fill of the zero-length buffer does not yield an
empty string — `CString::from_vec_with_nul` on the empty buffer fails (no
nul terminator), so the decode returns an error, contradicting the claim
that every variable-length type tolerates a reported size of zero. -/
theorem string_from_info_zero_size_errors :
    string_from_info ⟨Except.ok 0, fun _ => Except.ok []⟩
      = Except.error DecodeErr.fromVecWithNul := by
  rfl

/-- C1 amended: the array decoders (`Vec<f32>`, `Vec<i64>`) tolerate a
reported size of zero and yield the empty array, but the `String` decoder
fails on a reported size of zero with a missing-nul-terminator error; an
empty string attribute is instead decoded from a reported size of 1 whose
fill produces just the nul terminator. -/
theorem named_decode_zero_size_behaviour {α : Type} (o : NamedAttrOracle α)
    (os oe : NamedAttrOracle Nat)
    (ho : o.sizeQuery = Except.ok 0) (hf : o.fill 0 = Except.ok [])
    (hos : os.sizeQuery = Except.ok 0) (hfs : os.fill 0 = Except.ok [])
    (hoe : oe.sizeQuery = Except.ok 1) (hfe : oe.fill 1 = Except.ok [0]) :
    arrayFromInfo o = Except.ok []
      ∧ string_from_info os = Except.error DecodeErr.fromVecWithNul
      ∧ string_from_info oe = Except.ok [] := by
  unfold arrayFromInfo string_from_info
  simp only [ho, hos, hoe]
  simp only [hf, hfs, hfe]
  exact ⟨trivial, rfl, rfl⟩

/-- Witness for the C1 amended theorem at concrete oracles. -/
theorem named_decode_zero_size_behaviour_witness :
    arrayFromInfo (⟨Except.ok 0, fun _ => Except.ok []⟩ : NamedAttrOracle Int) = Except.ok []
      ∧ string_from_info ⟨Except.ok 0, fun _ => Except.ok []⟩
        = Except.error DecodeErr.fromVecWithNul
      ∧ string_from_info ⟨Except.ok 1, fun _ => Except.ok [0]⟩ = Except.ok [] :=
  named_decode_zero_size_behaviour _ _ _ rfl rfl rfl rfl rfl rfl

/-- C2 counterexample: for `Vec<f32>::from_op_attr`, requesting 4 bytes
(one element) while the native call reports 5 bytes returned is a length
mismatch, yet the decode succeeds instead of failing the assertion — the
assertion compares `requested / 4` with `reported / 4`, and `4 / 4 = 5 / 4`. -/
theorem vec_f32_op_attr_mismatch_passes :
    vec_f32_from_op_attr ⟨Except.ok (), 5, [7]⟩ 4 = RustOutcome.ok [7] ∧ (5 : Nat) ≠ 4 := by
  refine ⟨rfl, by decide⟩

/-- C2 amended: after a successful native read, the scalar decoders assert
that the reported length equals the host type size exactly (4 for `f32`, 8
for `i64`) and the `String` decoder asserts that the reported length equals
the requested length exactly, but the array decoders only assert that the
reported and requested lengths agree after division by the element size, so
a byte-length mismatch within the same element count passes the
assertion. -/
theorem op_attr_length_assertion_behaviour :
    (∀ (o : ReadOpAttrOracle Nat) (len : Nat), o.result = Except.ok () →
      (f32_from_op_attr o len ≠ RustOutcome.panicked ↔ o.reportedLen = 4))
    ∧ (∀ (o : ReadOpAttrOracle Int) (len : Nat), o.result = Except.ok () →
      (i64_from_op_attr o len ≠ RustOutcome.panicked ↔ o.reportedLen = 8))
    ∧ (∀ (o : ReadOpAttrOracle (List Nat)) (len : Nat), o.result = Except.ok () →
      (string_from_op_attr o len ≠ RustOutcome.panicked ↔ len = o.reportedLen))
    ∧ (∀ (o : ReadOpAttrOracle (List Nat)) (len : Nat), o.result = Except.ok () →
      (vec_f32_from_op_attr o len ≠ RustOutcome.panicked ↔ len / 4 = o.reportedLen / 4))
    ∧ (∀ (o : ReadOpAttrOracle (List Int)) (len : Nat), o.result = Except.ok () →
      (vec_i64_from_op_attr o len ≠ RustOutcome.panicked ↔ len / 8 = o.reportedLen / 8)) := by
  refine ⟨?_, ?_, ?_, ?_, ?_⟩
  · intro o len h
    unfold f32_from_op_attr
    rw [h]
    by_cases hr : o.reportedLen = 4 <;> simp [hr]
  · intro o len h
    unfold i64_from_op_attr
    rw [h]
    by_cases hr : o.reportedLen = 8 <;> simp [hr]
  · intro o len h
    unfold string_from_op_attr
    rw [h]
    by_cases hl : len = o.reportedLen <;> simp only [hl, if_true, if_false, reduceIte]
    · cases hc : cstringFromVecWithNul o.written with
      | none => simp
      | some s => by_cases hu : utf8Valid s <;> simp [hu]
    · simp [hl]
  · intro o len h
    unfold vec_f32_from_op_attr
    rw [h]
    by_cases hq : len / 4 = o.reportedLen / 4 <;> simp [hq]
  · intro o len h
    unfold vec_i64_from_op_attr
    rw [h]
    by_cases hq : len / 8 = o.reportedLen / 8 <;> simp [hq]

/-- Witness for the C2 amended theorem at concrete oracles: the scalar
`f32` decoder panics on a reported length of 8 when 4 was requested, and
the `Vec<f32>` decoder accepts a reported 5 against a requested 4. -/
theorem op_attr_length_assertion_behaviour_witness :
    (f32_from_op_attr ⟨Except.ok (), 8, 0⟩ 4 ≠ RustOutcome.panicked ↔ (8 : Nat) = 4)
      ∧ (vec_f32_from_op_attr ⟨Except.ok (), 5, [7]⟩ 4 ≠ RustOutcome.panicked
          ↔ (4 : Nat) / 4 = 5 / 4) :=
  ⟨op_attr_length_assertion_behaviour.1 ⟨Except.ok (), 8, 0⟩ 4 rfl,
    op_attr_length_assertion_behaviour.2.2.2.1 ⟨Except.ok (), 5, [7]⟩ 4 rfl⟩

/-- C5 counterexample: a native status failure inside the decode behind
`KernelAttributes::get` is not propagated as a typed error — `get` maps it
to `Option.none` via `.ok()`, indistinguishable from an absent attribute,
so the native error is silently swallowed at a concrete input although the
spec lists no exception for `get`. -/
theorem get_swallows_native_failure :
    KernelAttributes.get_string ⟨Except.error (NativeErr.status "native failure"), fun _ => Except.ok []⟩
      = Option.none := by
  rfl

/-- C5 amended: native status failures are propagated as typed errors by
the decoders themselves (`from_info` wraps the failing size query), but
`KernelAttributes::get` then discards any decode error — native failures
included — and returns `Option.none`, an undocumented exception to the
no-swallowing rule. -/
theorem get_discards_decode_errors (e : NativeErr) (f : Nat → Except NativeErr (List Nat)) :
    string_from_info ⟨Except.error e, f⟩ = Except.error (DecodeErr.native e)
      ∧ KernelAttributes.get_string ⟨Except.error e, f⟩ = Option.none
      ∧ ∀ (α : Type) (d : DecodeErr),
          KernelAttributes.get (Except.error d : Except DecodeErr α) = Option.none := by
  refine ⟨rfl, rfl, fun α d => rfl⟩
